import Mathlib

/-
Verification of the ngs_pipeline repository (ChIP-seq processing pipeline and
seqnado configuration wizard) against its natural-language specification.

The development shallowly embeds the Python code of
  src/ngs_pipeline/ngs_pipeline.py and src/seqnado/config.py
into Lean: shell-command builders become pure string functions, filesystem
effects become explicit passing of an association-list filesystem state, and
fallible Python code returns Except values over a small model of Python
exceptions.  External libraries (pickle, trackhub) are modelled from their
documented behaviour, and each such model is marked in its doc comment.
-/

/-- Model of the Python exceptions that the embedded code can raise. -/
inductive PyErr where
  | typeError
  | valueError
  | fileNotFoundError
  | unpicklingError
  | attributeError
  | assertionError
  | systemExit (code : Nat)
deriving DecidableEq

/-- Model of the Python scalar values the embedded code manipulates:
strings, booleans, integers and None. -/
inductive PyVal where
  | str (s : String)
  | bool (b : Bool)
  | int (n : Int)
  | noneV
deriving DecidableEq

/-- Python truthiness of a string: only the empty string is falsy. -/
def pyTruthyStr (s : String) : Bool := !(s == "")

/-- Python truthiness of an optional string (dict.get result):
None and the empty string are falsy. -/
def pyTruthyOpt : Option String → Bool
  | Option.none => false
  | Option.some s => !(s == "")

/-- Python truthiness of a modelled Python value. -/
def pyTruthy : PyVal → Bool
  | PyVal.str s => !(s == "")
  | PyVal.bool b => b
  | PyVal.int n => !(n == 0)
  | PyVal.noneV => false

/-- Whether pat is a prefix of the second list (character-wise). -/
def listStarts : List Char → List Char → Bool
  | [], _ => true
  | _ :: _, [] => false
  | p :: ps, c :: cs => p == c && listStarts ps cs

/-- Whether the string pat is a prefix of s. -/
def strStarts (pat s : String) : Bool := listStarts pat.toList s.toList

/-- Whether pat occurs as a contiguous substring (Python `pat in s`). -/
def listHasInfix (pat : List Char) : List Char → Bool
  | [] => listStarts pat []
  | c :: cs => listStarts pat (c :: cs) || listHasInfix pat cs

/-- Python `pat in s` on strings. -/
def strContains (s pat : String) : Bool := listHasInfix pat.toList s.toList

/-- Fuelled core of Python str.replace for a non-empty pattern: replaces
every non-overlapping occurrence of pat left to right.  Fuel equal to the
length of the subject suffices because every step consumes at least one
character of the subject. -/
def replaceAllFuel (pat repl : List Char) : Nat → List Char → List Char
  | _, [] => []
  | 0, s => s
  | fuel + 1, c :: cs =>
    if !(pat.isEmpty) && listStarts pat (c :: cs) then
      repl ++ replaceAllFuel pat repl fuel (List.drop pat.length (c :: cs))
    else
      c :: replaceAllFuel pat repl fuel cs

/-- Python str.replace (for the non-empty literal patterns used by the
pipeline): s.replace(pat, repl). -/
def pyReplace (s pat repl : String) : String :=
  (replaceAllFuel pat.toList repl.toList s.toList.length s.toList).asString

/-- Largest index i < n satisfying p, if any. -/
def lastIdxP (p : Nat → Bool) (n : Nat) : Option Nat :=
  ((List.range n).filter p).getLast?

/-- Python os.path.basename for the slash-separated paths the pipeline
builds: the part after the last slash. -/
def os_path_basename (s : String) : String :=
  ((s.toList.reverse.takeWhile (fun c => !(c == '/'))).reverse).asString

/-- Embedding of `re.match(r".*"/"(.*)_(.*).bam", infile)` from
call_peaks_macs (ngs_pipeline.py line 431), returning the two capture
groups (samplename, antibody) of the leftmost-greedy match.  Greedy
backtracking resolves to: the underscore chosen is the last one followed,
at distance at least two, by an occurrence of "bam"; the slash chosen is
the last one before that underscore; the any-character of the unescaped
dot is the character right before the last such "bam" occurrence. -/
def reMatchSampleAntibodyBam (s : String) : Option (String × String) :=
  let cs := s.toList
  let n := cs.length
  let bam := String.toList "bam"
  let bamAt := fun (p : Nat) => listStarts bam (cs.drop p)
  match lastIdxP (fun j => (cs.get? j == Option.some '_') &&
      (List.range n).any (fun p => decide (j + 2 ≤ p) && bamAt p)) n with
  | Option.none => Option.none
  | Option.some j =>
    match lastIdxP (fun i => (cs.get? i == Option.some '/') && decide (i < j)) n with
    | Option.none => Option.none
    | Option.some i =>
      match lastIdxP (fun p => decide (j + 2 ≤ p) && bamAt p) n with
      | Option.none => Option.none
      | Option.some p =>
        Option.some (((cs.drop (i + 1)).take (j - (i + 1))).asString,
                     ((cs.drop (j + 1)).take (p - 1 - (j + 1))).asString)

/-- Embedding of `re.match(r".*"/"(.*)_(.*)", infile)` from
call_peaks_homer (ngs_pipeline.py line 467), returning the two capture
groups (samplename, antibody).  Greedy backtracking resolves to: the
underscore chosen is the last underscore of the string, the slash chosen is
the last slash before it, and the second group extends to the end. -/
def reMatchSampleAntibody (s : String) : Option (String × String) :=
  let cs := s.toList
  let n := cs.length
  match lastIdxP (fun j => cs.get? j == Option.some '_') n with
  | Option.none => Option.none
  | Option.some j =>
    match lastIdxP (fun i => (cs.get? i == Option.some '/') && decide (i < j)) n with
    | Option.none => Option.none
    | Option.some i =>
      Option.some (((cs.drop (i + 1)).take (j - (i + 1))).asString,
                   (cs.drop (j + 1)).asString)

example : reMatchSampleAntibodyBam "bam_processed/samp1_H3K27ac.bam" =
    Option.some ("samp1", "H3K27ac") := by decide

example : reMatchSampleAntibody "tag/samp1_H3K27ac" =
    Option.some ("samp1", "H3K27ac") := by decide

/-
UCSC hub builder (make_ucsc_hub, ngs_pipeline.py lines 531-600).

The filesystem state is the contents of the hub directory hub_dir, as an
association list from basename to file data; every path the function
touches lives inside hub_dir.
-/

/-- Model of the library objects handled by the trackhub package.  The
track database carries its list of (name, source, tracktype) tracks so
that add_tracks can be embedded. -/
inductive HubObj where
  | hubO (name short long email genome : String)
  | genomesFileO (hub : String)
  | genomeO (name : String)
  | trackDbO (tracks : List (String × String × String))
deriving DecidableEq

/-- Data stored in a file of the hub directory: a valid pickle payload, a
file truncated by open(..., "wb") with nothing written yet, or any other
plain file. -/
inductive FileData where
  | pickled (objs : List HubObj)
  | truncated
  | plain
deriving DecidableEq

/-- The hub directory contents: basename to file data. -/
abbrev HubFs : Type := List (String × FileData)

/-- The configuration values make_ucsc_hub reads from P.PARAMS.
hub_append records the truthiness of P.PARAMS.get("hub_append"). -/
structure HubParams where
  hub_name : String
  genome_name : String
  hub_append : Bool
  hub_short : Option String
  hub_long : Option String
  hub_email : String
deriving DecidableEq

/-- Basename of the pickle cache file within hub_dir. -/
def pklName : String := ".hub.pkl"

/-- The basenames present in the hub directory. -/
def fsKeys (fs : HubFs) : List String := fs.map Prod.fst

/-- os.path.exists within the hub directory. -/
def fsExists (fs : HubFs) (p : String) : Bool := (List.lookup p fs).isSome

/-- Removal of every entry with the given basename. -/
def fsRemove (fs : HubFs) (p : String) : HubFs :=
  fs.filter (fun e => !(e.1 == p))

/-- Creation or truncation of a file, as open(path, mode) for a write
mode: the new data replaces any previous entry. -/
def fsSet (fs : HubFs) (p : String) (d : FileData) : HubFs :=
  (p, d) :: fsRemove fs p

/-- os.unlink: removes the file, raising FileNotFoundError if absent. -/
def unlink (fs : HubFs) (p : String) : Except PyErr HubFs :=
  if fsExists fs p then Except.ok (fsRemove fs p) else Except.error PyErr.fileNotFoundError

/-- Whether basename f matches the glob pattern pre ++ "*".  A star never
matches a slash (basenames have none) and a pattern starting with the star
itself does not match hidden files. -/
def globMatch (pre f : String) : Bool :=
  if pre == "" then !(strStarts "." f) else strStarts pre f

/-- glob.glob(os.path.join(hub_dir, pre + "*")), as the list of matching
basenames in directory order. -/
def globList (fs : HubFs) (pre : String) : List String :=
  (fsKeys fs).filter (globMatch pre)

/-- The for-loop of os.unlink calls over a list of basenames
(ngs_pipeline.py lines 548-551). -/
def unlinkList : HubFs → List String → Except PyErr HubFs
  | fs, [] => Except.ok fs
  | fs, n :: ns =>
    match unlink fs n with
    | Except.ok fs1 => unlinkList fs1 ns
    | Except.error e => Except.error e

/-- The filesystem after deleting every basename matching pre ++ "*". -/
def deleteGlob (fs : HubFs) (pre : String) : HubFs :=
  fs.filter (fun e => !(globMatch pre e.1))

/-- Modelled from the trackhub library: trackhub.default_hub returns fresh
hub, genomes_file, genome and trackdb objects built from the given names
(ngs_pipeline.py lines 561-567). -/
def trackhub_default_hub (hub_name : String) (short_label long_label : Option String)
    (email genome : String) : HubObj × HubObj × HubObj × HubObj :=
  (HubObj.hubO hub_name (short_label.getD "") (long_label.getD "") email genome,
   HubObj.genomesFileO hub_name,
   HubObj.genomeO genome,
   HubObj.trackDbO [])

/-- The four local variables of make_ucsc_hub after the append-or-default
branch, together with the hub-directory state after the deletions and a
record of which branch ran. -/
structure CleanupOut where
  hub : HubObj
  genomes_file : HubObj
  genome : HubObj
  trackdb : HubObj
  fs : HubFs
  reloaded : Bool
deriving DecidableEq

/-- Embedding of make_ucsc_hub lines 537-567: when the pickle cache exists
and hub_append is truthy, reload the four pickled objects and delete the
previous run's staged files (every basename matching genome_name ++ "*",
then hub_name ++ ".hub.txt", then hub_name ++ ".genomes.txt"); otherwise
build a fresh default hub and leave the directory untouched. -/
def hubCleanup (p : HubParams) (fs : HubFs) : Except PyErr CleanupOut :=
  if fsExists fs pklName && p.hub_append then
    match List.lookup pklName fs with
    | Option.some (FileData.pickled [h1, h2, h3, h4]) =>
      match unlinkList fs (globList fs p.genome_name) with
      | Except.error e => Except.error e
      | Except.ok fs1 =>
        match unlink fs1 (p.hub_name ++ ".hub.txt") with
        | Except.error e => Except.error e
        | Except.ok fs2 =>
          match unlink fs2 (p.hub_name ++ ".genomes.txt") with
          | Except.error e => Except.error e
          | Except.ok fs3 => Except.ok (CleanupOut.mk h1 h2 h3 h4 fs3 true)
    | Option.some (FileData.pickled _) => Except.error PyErr.valueError
    | Option.some _ => Except.error PyErr.unpicklingError
    | Option.none => Except.error PyErr.fileNotFoundError
  else
    let dh := trackhub_default_hub p.hub_name p.hub_short p.hub_long p.hub_email p.genome_name
    Except.ok (CleanupOut.mk dh.1 dh.2.1 dh.2.2.1 dh.2.2.2 fs false)

/-- Embedding of make_ucsc_hub lines 569-593: a Track is added to the
track database for every input whose name contains ".bigWig" and for every
input whose name contains ".bigBed". -/
def addTracks (trackdb : HubObj) (infiles : List String) : HubObj :=
  match trackdb with
  | HubObj.trackDbO ts =>
    let bigwigs := infiles.filter (fun fn => strContains fn ".bigWig")
    let bigbeds := infiles.filter (fun fn => strContains fn ".bigBed")
    HubObj.trackDbO (ts
      ++ bigwigs.map (fun bw => (pyReplace (os_path_basename bw) ".bigWig" "", bw, "bigWig"))
      ++ bigbeds.map (fun bb => (pyReplace (os_path_basename bb) ".bigBed" "", bb, "bigBed")))
  | other => other

/-- Modelled from the trackhub library: trackhub.upload.stage_hub writes
the hub metadata files hub_name ++ ".hub.txt" and hub_name ++
".genomes.txt" plus per-genome track files named after the genome into
hub_dir (ngs_pipeline.py line 596; the deletion code at lines 548-557
relies on exactly this layout). -/
def stageHub (p : HubParams) (fs : HubFs) : HubFs :=
  fsSet (fsSet (fsSet fs
      (p.hub_name ++ ".hub.txt") FileData.plain)
      (p.hub_name ++ ".genomes.txt") FileData.plain)
      (p.genome_name ++ ".trackDb.txt") FileData.plain

/-- The object list passed to pickle.dump at ngs_pipeline.py line 600. -/
def hubPickleList (hub genomes_file genome trackdb : HubObj) : List HubObj :=
  [hub, genomes_file, genome, trackdb]

/-- Modelled from the pickle library: pickle.dump requires a file object
as its second positional argument; the call at ngs_pipeline.py line 600
supplies only the object list, so CPython raises TypeError before writing
any bytes. -/
def pickle_dump_missing_file (_objs : List HubObj) : Except PyErr Unit :=
  Except.error PyErr.typeError

/-- Embedding of the whole of make_ucsc_hub: the append-or-default branch
and deletions, then track addition, staging, and the cache save attempt.
The open(hub_pkl_path, "wb") context manager truncates the cache file
before pickle.dump runs. -/
def make_ucsc_hub (p : HubParams) (fs : HubFs) (infiles : List String) :
    HubFs × Except PyErr Unit :=
  match hubCleanup p fs with
  | Except.error e => (fs, Except.error e)
  | Except.ok out =>
    let tdb := addTracks out.trackdb infiles
    let fs1 := stageHub p out.fs
    let fs2 := fsSet fs1 pklName FileData.truncated
    match pickle_dump_missing_file (hubPickleList out.hub out.genomes_file out.genome tdb) with
    | Except.error e => (fs2, Except.error e)
    | Except.ok _ =>
      (fsSet fs2 pklName (FileData.pickled
        (hubPickleList out.hub out.genomes_file out.genome tdb)), Except.ok ())

/-
Peak calling (call_peaks_macs lines 425-446, call_peaks_homer lines
455-486).  os.path.exists is passed in as a predicate on paths.
-/

/-- The control file call_peaks_macs derives from the matched samplename. -/
def macs_control_file (samplename : String) : String :=
  "bam_processed/" ++ samplename ++ "_input.bam"

/-- The control tag directory call_peaks_homer derives from the matched
samplename. -/
def homer_control_dir (samplename : String) : String :=
  "tag/" ++ samplename ++ "_input"

/-- The MACS callpeak command before any control flag (line 429, with the
output prefix computed at line 428). -/
def macs_base_statement (peaks_caller infile outfile : String) : String :=
  peaks_caller ++ " callpeak -t " ++ infile ++ " -n "
    ++ pyReplace outfile "_peaks.narrowPeak" "" ++ " "

/-- Embedding of the statement built by call_peaks_macs: the control flag
"-c" is appended exactly when the filename regex matches and the derived
control file exists. -/
def call_peaks_macs_statement (ex : String → Bool)
    (peaks_caller infile outfile : String) : String :=
  let base := macs_base_statement peaks_caller infile outfile
  match reMatchSampleAntibodyBam infile with
  | Option.some (samplename, _antibody) =>
    if ex (macs_control_file samplename) then
      base ++ "-c " ++ macs_control_file samplename
    else base
  | Option.none => base

/-- The HOMER findPeaks command pieces before any control flag (lines
458-463). -/
def homer_base_statement (infile findpeaks_options outfile : String) : List String :=
  ["findPeaks", infile, findpeaks_options, "-o", pyReplace outfile ".bed" ".txt"]

/-- Embedding of the statement list built by call_peaks_homer: the control
flag "-i" is appended exactly when the filename regex matches and the
derived tag directory exists; the pos2bed conversion is always appended
last. -/
def call_peaks_homer_statement (ex : String → Bool)
    (findpeaks_options infile outfile : String) : List String :=
  let tmp := pyReplace outfile ".bed" ".txt"
  let base := homer_base_statement infile findpeaks_options outfile
  let withCtl :=
    match reMatchSampleAntibody infile with
    | Option.some (samplename, _antibody) =>
      if ex (homer_control_dir samplename) then
        base ++ ["-i " ++ homer_control_dir samplename]
      else base
    | Option.none => base
  withCtl ++ ["&& pos2bed.pl " ++ tmp ++ " -o " ++ outfile]

/-
CLI entry point (ngs_pipeline.py lines 603-615).
-/

/-- Embedding of the __main__ dispatch: returns whether set_up_chromsizes
runs before P.main, and the argument vector handed to P.main. -/
def main_dispatch (argv : List String) : Bool × List String :=
  if argv.contains "-h" || argv.contains "--help" then (false, argv)
  else if !(argv.contains "make") then (false, argv)
  else (true, argv)

/-
Fastq normalisation and symlinking (ngs_pipeline.py lines 63-80).  The
working-directory state is an association list from path to symlink target
(preexisting regular files carry an arbitrary stored string).
-/

/-- The working directory and fastq/ subtree: path to stored target. -/
abbrev SymFs : Type := List (String × String)

/-- The renaming applied to each globbed fastq name (lines 69-74). -/
def fqRenamed (fq : String) : String :=
  pyReplace (pyReplace (pyReplace (pyReplace fq
    "Input" "input")
    "INPUT" "input")
    "R1.fastq" "1.fastq")
    "R2.fastq" "2.fastq"

/-- The destination path of a globbed fastq file. -/
def fqDest (fq : String) : String := "fastq/" ++ fqRenamed fq

/-- The fastqs dict built at lines 67-76: source abspath paired with the
normalised destination, in glob order. -/
def fastqPairs (abspath : String → String) (globbed : List String) :
    List (String × String) :=
  globbed.map (fun fq => (abspath fq, fqDest fq))

/-- The symlink loop at lines 78-80: each destination is symlinked to its
source unless a file with the destination name already exists. -/
def createSymlinks (fs : SymFs) : List (String × String) → SymFs
  | [] => fs
  | pr :: rest =>
    createSymlinks
      (if (List.lookup pr.2 fs).isSome then fs else (pr.2, pr.1) :: fs) rest

/-
Explicit failure checks (set_up_chromsizes lines 86-107 and
setup_configuration lines 30-68).
-/

/-- Where set_up_chromsizes ends up sourcing the chromosome sizes. -/
inductive ChromSizesSrc where
  | fromParams
  | tmpFile
  | downloaded
deriving DecidableEq

/-- Embedding of set_up_chromsizes: asserts that genome_name is truthy,
then keeps a configured genome_chrom_sizes, falls back to an existing
chrom_sizes.txt.tmp, or downloads from UCSC. -/
def set_up_chromsizes (genome_name genome_chrom_sizes : Option String)
    (tmpExists : Bool) : Except PyErr ChromSizesSrc :=
  if !(pyTruthyOpt genome_name) then Except.error PyErr.assertionError
  else if pyTruthyOpt genome_chrom_sizes then Except.ok ChromSizesSrc.fromParams
  else if tmpExists then Except.ok ChromSizesSrc.tmpFile
  else Except.ok ChromSizesSrc.downloaded

/-- One genome entry of the genome_config.json lookup. -/
structure GenomeEntry where
  star_index : String
  bt2_index : String
  chromosome_sizes : String
  gtf : String
  blacklist : Option String
deriving DecidableEq

/-- The genome-derived configuration assembled at config.py lines 55-62. -/
structure GenomeConfig where
  index : String
  chromosome_sizes : String
  gtf : String
  blacklist : String
deriving DecidableEq

/-- Embedding of the two guarded steps of setup_configuration (config.py
lines 40-68): sys.exit(1) when the genome config file is missing, and
sys.exit(1) when the chosen genome is not a key of it; otherwise the
genome configuration is assembled. -/
def setup_configuration_guards (genomeConfigFileExists : Bool)
    (genome_values : List (String × GenomeEntry)) (assay genome : String) :
    Except PyErr GenomeConfig :=
  if !genomeConfigFileExists then Except.error (PyErr.systemExit 1)
  else
    match List.lookup genome genome_values with
    | Option.some gv =>
      Except.ok (GenomeConfig.mk
        (if assay == "rna" then gv.star_index else gv.bt2_index)
        gv.chromosome_sizes gv.gtf (gv.blacklist.getD ""))
    | Option.none => Except.error (PyErr.systemExit 1)

/-
Configuration wizard prompts (config.py lines 16-27 and the peak-calling
and PCR-duplicate steps of setup_configuration, lines 95-112 and 161-170).
The stream of user answers is passed in as a list of strings; an exhausted
stream means the wizard is still looping at the prompt.
-/

/-- Outcome of one get_user_input call: a returned value, a raised
exception, or still waiting for an acceptable answer. -/
inductive GUIOut where
  | val (v : PyVal)
  | err (e : PyErr)
  | pending
deriving DecidableEq

/-- Truthiness of the choices argument: None and the empty list are falsy. -/
def choicesTruthy : Option (List String) → Bool
  | Option.none => false
  | Option.some cs => !cs.isEmpty

/-- Python `user_input not in choices` is false when choices is absent. -/
def memChoices : Option String → Option (List String) → Bool
  | Option.some s, Option.some cs => cs.contains s
  | _, _ => false

/-- The PyVal returned for an optional string: None becomes Python None. -/
def pyOfOpt : Option String → PyVal
  | Option.some s => PyVal.str s
  | Option.none => PyVal.noneV

/-- Python str.lower for the ASCII answers the wizard compares. -/
def pyLower (s : String) : String := (s.toList.map Char.toLower).asString

/-- Embedding of get_user_input (config.py lines 16-27): an empty answer
falls back to the default; a boolean prompt lowercases and compares with
"yes"; a prompt with truthy choices re-asks until the answer is among
them. -/
def get_user_input (default : Option String) (is_boolean : Bool)
    (choices : Option (List String)) : List String → GUIOut
  | [] => GUIOut.pending
  | raw :: rest =>
    let user_input : Option String := if raw == "" then default else Option.some raw
    if is_boolean then
      match user_input with
      | Option.some s => GUIOut.val (PyVal.bool (pyLower s == "yes"))
      | Option.none => GUIOut.err PyErr.attributeError
    else
      if choicesTruthy choices && !(memChoices user_input choices) then
        get_user_input default is_boolean choices rest
      else
        GUIOut.val (pyOfOpt user_input)

/-- The wizard state: the template_data dict, most recent binding first. -/
abbrev TD : Type := List (String × PyVal)

/-- Dict assignment template_data[k] = v. -/
def tdSet (td : TD) (k : String) (v : PyVal) : TD := (k, v) :: td

/-- The choices offered for the peak caller (config.py lines 166-170). -/
def peak_choices : List String := ["lanceotron", "macs", "homer", "seacr"]

/-- Embedding of the call-peaks step (config.py lines 161-170): for chip
and atac assays, ask whether to call peaks and, when enabled, ask for the
peak caller among the four choices. -/
def setup_call_peaks (assay : String) (td : TD)
    (insCall insMethod : List String) : Option TD :=
  if assay == "chip" || assay == "atac" then
    match get_user_input (Option.some "no") true Option.none insCall with
    | GUIOut.val v =>
      let td1 := tdSet td "call_peaks" v
      if pyTruthy v then
        match get_user_input (Option.some "lanceotron") false
            (Option.some peak_choices) insMethod with
        | GUIOut.val m => Option.some (tdSet td1 "peak_calling_method" m)
        | _ => Option.none
      else Option.some td1
    | _ => Option.none
  else Option.some td

/-- Embedding of the PCR-duplicate step (config.py lines 95-112): ask
whether to remove duplicates; when enabled, ask for the method and for
library complexity; when declined, set both remove_pcr_duplicates_method
and library_complexity to the string "False". -/
def setup_remove_pcr_duplicates (assay : String) (td : TD)
    (insRemove insMethod insComplexity : List String) : Option TD :=
  let default := if assay == "chip" || assay == "atac" then "yes" else "no"
  match get_user_input (Option.some default) true Option.none insRemove with
  | GUIOut.val v =>
    let td1 := tdSet td "remove_pcr_duplicates" v
    if pyTruthy v then
      match get_user_input (Option.some "picard") false
          (Option.some ["picard", "samtools"]) insMethod with
      | GUIOut.val m =>
        match get_user_input (Option.some "no") true Option.none insComplexity with
        | GUIOut.val c =>
          Option.some (tdSet (tdSet td1 "remove_pcr_duplicates_method" m)
            "library_complexity" c)
        | _ => Option.none
      | _ => Option.none
    else
      Option.some (tdSet (tdSet td1 "remove_pcr_duplicates_method" (PyVal.str "False"))
        "library_complexity" (PyVal.str "False"))
  | _ => Option.none

/-
Duplicate filtering (alignments_filter, ngs_pipeline.py lines 295-333).
-/

/-- The alignmentSieve branch of alignments_filter (lines 305-319). -/
def sieve_statement (dedupFlag : String) (filter_options : Option String)
    (infile outfile : String) : List String :=
  ["alignmentSieve", "-b", infile, "-o", outfile, "-p", "%(pipeline_n_cores)s",
   dedupFlag,
   (if pyTruthyOpt filter_options then filter_options.getD " " else " "),
   "&& samtools sort -o %(outfile)s.tmp %(outfile)s -@ %(pipeline_n_cores)s",
   "&& mv %(outfile)s.tmp %(outfile)s",
   "&& samtools index %(outfile)s",
   "&& rm -f %(outfile)s.tmp"]

/-- The symlink fallback branch of alignments_filter (lines 321-326). -/
def symlink_statement (_infile _outfile : String) : List String :=
  ["ln -s %(infile_abspath)s %(outfile)s",
   "&& ln -s %(infile_abspath)s.bai %(outfile)s.bai"]

/-- Embedding of the statement choice in alignments_filter: the
deduplication flag is "--ignoreDuplicates" when alignments_deduplicate is
truthy and the one-character string " " otherwise, and the alignmentSieve
branch is guarded by the truthiness of that string or of the filter
options. -/
def alignments_filter_statement (dedup : Bool) (filter_options : Option String)
    (infile outfile : String) : List String :=
  let alignments_deduplicate := if dedup then "--ignoreDuplicates" else " "
  if pyTruthyStr alignments_deduplicate || pyTruthyOpt filter_options then
    sieve_statement alignments_deduplicate filter_options infile outfile
  else
    symlink_statement infile outfile

/-
Trim-galore core count (fastq_trim, ngs_pipeline.py lines 166-168).
-/

/-- Embedding of the cores expression of fastq_trim: the configured value
when int(pipeline_n_cores) is at most 8, the string "8" otherwise. -/
def fastq_trim_cores (pipeline_n_cores : Int) : PyVal :=
  if pipeline_n_cores ≤ 8 then PyVal.int pipeline_n_cores else PyVal.str "8"

/-- Numeric reading of a modelled Python value made of decimal digits,
used to state bounds on core counts uniformly. -/
def strToIntModel (s : String) : Option Int :=
  match s.toList with
  | [] => Option.none
  | cs =>
    if cs.all (fun c => c.isDigit) then
      Option.some ((cs.foldl (fun n c => n * 10 + (c.toNat - 48)) 0 : Nat) : Int)
    else Option.none

/-- The integer a modelled Python value denotes, when it denotes one. -/
def pyInt : PyVal → Option Int
  | PyVal.int n => Option.some n
  | PyVal.str s => strToIntModel s
  | _ => Option.none

/-
Concrete fixtures used to evaluate the embedded functions on explicit
inputs.
-/

/-- A concrete hub object, as trackhub.default_hub would build it. -/
def hubObjW1 : HubObj := HubObj.hubO "myhub" "" "" "mail" "hg38"

/-- A concrete genomes-file object. -/
def hubObjW2 : HubObj := HubObj.genomesFileO "myhub"

/-- A concrete genome object. -/
def hubObjW3 : HubObj := HubObj.genomeO "hg38"

/-- A concrete empty track database. -/
def hubObjW4 : HubObj := HubObj.trackDbO []

/-- Concrete hub parameters with append mode enabled. -/
def hubParamsW : HubParams :=
  HubParams.mk "myhub" "hg38" true Option.none Option.none "mail"

/-- Concrete hub parameters with append mode disabled. -/
def hubParamsW0 : HubParams :=
  HubParams.mk "myhub" "hg38" false Option.none Option.none "mail"

/-- A concrete hub directory left by a previous run: the pickle cache, a
staged genome track file and the two hub metadata files. -/
def hubFsW : HubFs :=
  [(pklName, FileData.pickled [hubObjW1, hubObjW2, hubObjW3, hubObjW4]),
   ("hg38_sample1.bigWig", FileData.plain),
   ("myhub.hub.txt", FileData.plain),
   ("myhub.genomes.txt", FileData.plain)]

/-- The cleanup result of running hubCleanup on hubParamsW and hubFsW. -/
def cleanupOutW : CleanupOut :=
  CleanupOut.mk hubObjW1 hubObjW2 hubObjW3 hubObjW4
    [(pklName, FileData.pickled [hubObjW1, hubObjW2, hubObjW3, hubObjW4])] true

/-- The cleanup result of running hubCleanup on hubParamsW0 and an empty
directory: a fresh default hub. -/
def cleanupOutW0 : CleanupOut :=
  CleanupOut.mk hubObjW1 hubObjW2 hubObjW3 hubObjW4 [] false

/-- A concrete existence predicate granting both control paths. -/
def exW : String → Bool :=
  fun s => (s == "bam_processed/samp1_input.bam") || (s == "tag/samp1_input")

/-- A concrete absolute-path function for the working directory. -/
def abspathW : String → String := fun s => "/data/" ++ s

/-- A concrete glob result with a single fastq file. -/
def globbedW : List String := ["sampleA_Input_R1.fastq.gz"]

/-- A concrete genome-config entry. -/
def genomeEntryW : GenomeEntry :=
  GenomeEntry.mk "star_idx" "bt2_idx" "sizes.txt" "genes.gtf" Option.none

/-- A concrete genome-config lookup table. -/
def genomeValuesW : List (String × GenomeEntry) := [("hg38", genomeEntryW)]

/-- The template_data produced by the call-peaks step on answers
["yes"] and ["macs"]. -/
def tdPeaksW : TD :=
  [("peak_calling_method", PyVal.str "macs"), ("call_peaks", PyVal.bool true)]

/-- The template_data produced by the PCR-duplicate step on answer
["no"]. -/
def tdPcrW : TD :=
  [("library_complexity", PyVal.str "False"),
   ("remove_pcr_duplicates_method", PyVal.str "False"),
   ("remove_pcr_duplicates", PyVal.bool false)]

/-
Supporting lemmas about the filesystem model.
-/

theorem mem_fsKeys_iff (fs : HubFs) (n : String) :
    n ∈ fsKeys fs ↔ fsExists fs n = true := by
  induction fs with
  | nil => simp [fsKeys, fsExists]
  | cons e t ih =>
    obtain ⟨k, v⟩ := e
    cases h : (n == k) with
    | true =>
      have hnk : n = k := by simpa using h
      subst hnk
      simp [fsKeys, fsExists, List.lookup]
    | false =>
      have hne : ¬ n = k := by simpa using h
      simp only [fsKeys, List.map_cons, List.mem_cons, fsExists, List.lookup, h]
      simp [hne, fsKeys, fsExists]

theorem fsExists_fsRemove_ne (fs : HubFs) (m n : String) (h : m ≠ n) :
    fsExists (fsRemove fs n) m = fsExists fs m := by
  induction fs with
  | nil => rfl
  | cons e t ih =>
    obtain ⟨k, v⟩ := e
    by_cases hk : k = n
    · subst hk
      have hmk : (m == k) = false := beq_eq_false_iff_ne.mpr h
      simp only [fsRemove, List.filter] at ih ⊢
      simp only [beq_self_eq_true, Bool.not_true]
      simpa [fsExists, List.lookup, hmk] using ih
    · have hkn : (k == n) = false := beq_eq_false_iff_ne.mpr hk
      simp only [fsRemove, List.filter, hkn, Bool.not_false] at ih ⊢
      cases hmk : (m == k) with
      | true => simp [fsExists, List.lookup, hmk]
      | false => simpa [fsExists, List.lookup, hmk] using ih

theorem unlinkList_ok_of_nodup (ns : List String) :
    ∀ (fs : HubFs), ns.Nodup → (∀ n ∈ ns, fsExists fs n = true) →
    unlinkList fs ns = Except.ok (fs.filter (fun e => !(ns.contains e.1))) := by
  induction ns with
  | nil =>
    intro fs _ _
    simp [unlinkList, List.contains]
  | cons n ns ih =>
    intro fs hnd hex
    have hn : fsExists fs n = true := hex n (by simp)
    have hstep : unlinkList fs (n :: ns) = unlinkList (fsRemove fs n) ns := by
      simp [unlinkList, unlink, hn]
    rw [hstep, ih (fsRemove fs n) (List.nodup_cons.mp hnd).2 ?hex2]
    case hex2 =>
      intro m hm
      have hmn : m ≠ n := by
        rintro rfl
        exact (List.nodup_cons.mp hnd).1 hm
      rw [fsExists_fsRemove_ne fs m n hmn]
      exact hex m (List.mem_cons_of_mem n hm)
    congr 1
    rw [fsRemove, List.filter_filter]
    apply List.filter_congr
    intro e _
    cases hen : (e.1 == n) with
    | true => simp [List.contains, List.elem, hen]
    | false => simp [List.contains, List.elem, hen]

theorem unlinkList_globList (fs : HubFs) (pre : String)
    (hnd : (fsKeys fs).Nodup) :
    unlinkList fs (globList fs pre) = Except.ok (deleteGlob fs pre) := by
  rw [unlinkList_ok_of_nodup (globList fs pre) fs (hnd.filter _) ?hex]
  case hex =>
    intro n hnmem
    have : n ∈ fsKeys fs := (List.mem_filter.mp hnmem).1
    exact (mem_fsKeys_iff fs n).mp this
  congr 1
  apply List.filter_congr
  intro e he
  have hkey : e.1 ∈ fsKeys fs := List.mem_map_of_mem Prod.fst he
  congr 1
  cases hg : globMatch pre e.1 with
  | true =>
    have hmem : e.1 ∈ globList fs pre := List.mem_filter.mpr ⟨hkey, hg⟩
    exact List.elem_iff.mpr hmem
  | false =>
    cases hc : (globList fs pre).contains e.1 with
    | false => rfl
    | true =>
      exfalso
      have hmem : e.1 ∈ globList fs pre := List.elem_iff.mp hc
      have hge := (List.mem_filter.mp hmem).2
      rw [hg] at hge
      exact Bool.false_ne_true hge

theorem lookup_createSymlinks_preserved (pairs : List (String × String)) :
    ∀ (fs : SymFs) (d t : String), List.lookup d fs = Option.some t →
    List.lookup d (createSymlinks fs pairs) = Option.some t := by
  induction pairs with
  | nil => intro fs d t h; exact h
  | cons pr rest ih =>
    intro fs d t h
    simp only [createSymlinks]
    cases hp : (List.lookup pr.2 fs).isSome with
    | true =>
      rw [if_pos rfl]
      exact ih fs d t h
    | false =>
      rw [if_neg Bool.false_ne_true]
      apply ih
      have hdne : ¬ d = pr.2 := by
        rintro rfl
        rw [h] at hp
        simp at hp
      simpa [List.lookup, beq_eq_false_iff_ne.mpr hdne] using h

/-
Claim theorems.
-/

/-- Claim C4: the entry point forwards the argument vector unchanged to
the external workflow library's main, and set_up_chromsizes runs before
that call exactly when "make" is among the arguments and neither "-h" nor
"--help" is present. -/
theorem main_forwards_and_make_bootstrap (argv : List String) :
    (main_dispatch argv).2 = argv ∧
    ((main_dispatch argv).1 = true ↔
      (argv.contains "make" = true ∧
       argv.contains "-h" = false ∧ argv.contains "--help" = false)) := by
  unfold main_dispatch
  cases h1 : argv.contains "-h" <;>
    cases h2 : argv.contains "--help" <;>
      cases h3 : argv.contains "make" <;>
        simp [h1, h2, h3]

/-- Claim C9: in alignments_filter the symlink fallback branch is
unreachable, because the deduplication flag is the truthy one-character
string " " when deduplication is disabled, so the alignmentSieve branch is
taken for every configuration. -/
theorem alignments_filter_always_sieve (dedup : Bool)
    (filter_options : Option String) (infile outfile : String) :
    alignments_filter_statement dedup filter_options infile outfile =
      sieve_statement (if dedup then "--ignoreDuplicates" else " ")
        filter_options infile outfile ∧
    (alignments_filter_statement dedup filter_options infile outfile).head? =
      Option.some "alignmentSieve" := by
  have hcond : ∀ s : String, s = "--ignoreDuplicates" ∨ s = " " →
      pyTruthyStr s = true := by
    rintro s (rfl | rfl) <;> decide
  cases dedup <;>
    constructor <;>
      simp [alignments_filter_statement, sieve_statement, pyTruthyStr]

/-- Claim C10: the core count handed to trim_galore by fastq_trim is the
configured pipeline_n_cores when that value is at most 8 and the string
"8" otherwise, so its numeric value never exceeds 8. -/
theorem fastq_trim_cores_capped (n : Int) :
    fastq_trim_cores n = (if n ≤ 8 then PyVal.int n else PyVal.str "8") ∧
    pyInt (fastq_trim_cores n) = Option.some (if n ≤ 8 then n else 8) ∧
    (if n ≤ 8 then n else 8) ≤ 8 := by
  by_cases h : n ≤ 8
  · simp [fastq_trim_cores, pyInt, h]
  · refine ⟨by simp [fastq_trim_cores, h], ?_, by simp [h]⟩
    simp only [fastq_trim_cores, if_neg h]
    rw [show pyInt (PyVal.str "8") = Option.some 8 from rfl]

/-- Claim C6: the only explicit local failure checks behave as stated:
set_up_chromsizes raises AssertionError exactly when genome_name is absent
or falsy, and the config wizard exits with status 1 exactly when the
genome config file is missing or the chosen genome is not one of its keys;
in every other case both checks pass. -/
theorem explicit_failure_checks
    (gn gcs : Option String) (tmp : Bool) (fileExists : Bool)
    (genome_values : List (String × GenomeEntry)) (assay genome : String) :
    (set_up_chromsizes gn gcs tmp = Except.error PyErr.assertionError ↔
       pyTruthyOpt gn = false) ∧
    (pyTruthyOpt gn = true →
       ∃ r, set_up_chromsizes gn gcs tmp = Except.ok r) ∧
    (setup_configuration_guards fileExists genome_values assay genome =
        Except.error (PyErr.systemExit 1) ↔
       (fileExists = false ∨ List.lookup genome genome_values = Option.none)) ∧
    ((fileExists = true ∧ (List.lookup genome genome_values).isSome = true) →
       ∃ gc, setup_configuration_guards fileExists genome_values assay genome =
         Except.ok gc) := by
  have hchrom : (set_up_chromsizes gn gcs tmp = Except.error PyErr.assertionError ↔
      pyTruthyOpt gn = false) ∧
      (pyTruthyOpt gn = true → ∃ r, set_up_chromsizes gn gcs tmp = Except.ok r) := by
    cases hg : pyTruthyOpt gn <;> cases hc : pyTruthyOpt gcs <;> cases tmp <;>
      simp [set_up_chromsizes, hg, hc]
  have hconf : (setup_configuration_guards fileExists genome_values assay genome =
        Except.error (PyErr.systemExit 1) ↔
      (fileExists = false ∨ List.lookup genome genome_values = Option.none)) ∧
      ((fileExists = true ∧ (List.lookup genome genome_values).isSome = true) →
        ∃ gc, setup_configuration_guards fileExists genome_values assay genome =
          Except.ok gc) := by
    cases fileExists with
    | false => simp [setup_configuration_guards]
    | true =>
      cases hl : List.lookup genome genome_values with
      | none => simp [setup_configuration_guards, hl]
      | some gv => simp [setup_configuration_guards, hl]
  exact ⟨hchrom.1, hchrom.2, hconf.1, hconf.2⟩

theorem get_user_input_mem_choices (default : String) (cs : List String)
    (hcs : cs.isEmpty = false) (ins : List String) :
    ∀ (v : PyVal),
      get_user_input (Option.some default) false (Option.some cs) ins = GUIOut.val v →
      ∃ s, v = PyVal.str s ∧ s ∈ cs := by
  induction ins with
  | nil => intro v h; simp [get_user_input] at h
  | cons raw rest ih =>
    intro v h
    by_cases hraw : (raw == "") = true
    · simp only [get_user_input, hraw, if_true, choicesTruthy, hcs,
        Bool.not_false, Bool.true_and, memChoices] at h
      cases hm : cs.contains default with
      | true =>
        rw [hm] at h
        simp [pyOfOpt] at h
        exact ⟨default, h.symm, List.elem_iff.mp hm⟩
      | false =>
        rw [hm] at h
        simp only [Bool.not_false, if_true] at h
        exact ih v h
    · have hraw2 : (raw == "") = false := by
        cases hb : (raw == "") with
        | true => exact absurd hb hraw
        | false => rfl
      simp only [get_user_input, hraw2, Bool.false_eq_true, if_false,
        choicesTruthy, hcs, Bool.not_false, Bool.true_and, memChoices] at h
      cases hm : cs.contains raw with
      | true =>
        rw [hm] at h
        simp [pyOfOpt] at h
        exact ⟨raw, h.symm, List.elem_iff.mp hm⟩
      | false =>
        rw [hm] at h
        simp only [Bool.not_false, if_true] at h
        exact ih v h

/-- Claim C7: for chip and atac assays, whenever the wizard records an
enabled peak-calling step the rendered peak_calling_method is one of
lanceotron, macs, homer or seacr; and whenever PCR-duplicate removal is
declined both remove_pcr_duplicates_method and library_complexity are set
to the string "False". -/
theorem wizard_peak_method_and_pcr_defaults
    (assay : String) (td : TD)
    (insCall insMethod insRemove insMethodD insComplexity : List String) :
    (∀ td2, (assay = "chip" ∨ assay = "atac") →
       setup_call_peaks assay td insCall insMethod = Option.some td2 →
       List.lookup "call_peaks" td2 = Option.some (PyVal.bool true) →
       ∃ s, List.lookup "peak_calling_method" td2 = Option.some (PyVal.str s) ∧
         s ∈ peak_choices) ∧
    (∀ td3, setup_remove_pcr_duplicates assay td insRemove insMethodD insComplexity =
         Option.some td3 →
       List.lookup "remove_pcr_duplicates" td3 = Option.some (PyVal.bool false) →
       List.lookup "remove_pcr_duplicates_method" td3 =
           Option.some (PyVal.str "False") ∧
         List.lookup "library_complexity" td3 = Option.some (PyVal.str "False")) := by
  constructor
  · intro td2 hassay hrun hlook
    have hchip : (assay == "chip" || assay == "atac") = true := by
      rcases hassay with h | h <;> subst h <;> decide
    rw [setup_call_peaks, if_pos hchip] at hrun
    cases hcall : get_user_input (Option.some "no") true Option.none insCall with
    | pending => rw [hcall] at hrun; exact absurd hrun (by simp)
    | err e => rw [hcall] at hrun; exact absurd hrun (by simp)
    | val v =>
      rw [hcall] at hrun
      simp only [] at hrun
      cases hv : pyTruthy v with
      | false =>
        rw [hv] at hrun
        simp only [Bool.false_eq_true, if_false, Option.some.injEq] at hrun
        subst hrun
        simp only [tdSet, List.lookup] at hlook
        rw [show ("call_peaks" == "call_peaks") = true from rfl] at hlook
        simp only [Option.some.injEq] at hlook
        subst hlook
        simp [pyTruthy] at hv
      | true =>
        rw [hv] at hrun
        simp only [if_true] at hrun
        cases hm : get_user_input (Option.some "lanceotron") false
            (Option.some peak_choices) insMethod with
        | pending => rw [hm] at hrun; exact absurd hrun (by simp)
        | err e => rw [hm] at hrun; exact absurd hrun (by simp)
        | val m =>
          rw [hm] at hrun
          simp only [Option.some.injEq] at hrun
          subst hrun
          obtain ⟨s, hs, hmem⟩ :=
            get_user_input_mem_choices "lanceotron" peak_choices (by decide) insMethod m hm
          refine ⟨s, ?_, hmem⟩
          subst hs
          simp only [tdSet, List.lookup]
          rw [show ("peak_calling_method" == "peak_calling_method") = true from rfl]
  · intro td3 hrun hlook
    rw [setup_remove_pcr_duplicates] at hrun
    cases hrem : get_user_input
        (Option.some (if assay == "chip" || assay == "atac" then "yes" else "no"))
        true Option.none insRemove with
    | pending => rw [hrem] at hrun; exact absurd hrun (by simp)
    | err e => rw [hrem] at hrun; exact absurd hrun (by simp)
    | val v =>
      rw [hrem] at hrun
      simp only [] at hrun
      cases hv : pyTruthy v with
      | true =>
        rw [hv] at hrun
        simp only [if_true] at hrun
        cases hm : get_user_input (Option.some "picard") false
            (Option.some ["picard", "samtools"]) insMethodD with
        | pending => rw [hm] at hrun; exact absurd hrun (by simp)
        | err e => rw [hm] at hrun; exact absurd hrun (by simp)
        | val m =>
          rw [hm] at hrun
          cases hcx : get_user_input (Option.some "no") true Option.none insComplexity with
          | pending => rw [hcx] at hrun; exact absurd hrun (by simp)
          | err e => rw [hcx] at hrun; exact absurd hrun (by simp)
          | val c =>
            rw [hcx] at hrun
            simp only [Option.some.injEq] at hrun
            subst hrun
            exfalso
            simp only [tdSet, List.lookup] at hlook
            rw [show ("remove_pcr_duplicates" == "library_complexity") = false from
                  rfl] at hlook
            rw [show ("remove_pcr_duplicates" == "remove_pcr_duplicates_method") =
                  false from rfl] at hlook
            rw [show ("remove_pcr_duplicates" == "remove_pcr_duplicates") = true from
                  rfl] at hlook
            simp only [Option.some.injEq] at hlook
            subst hlook
            simp [pyTruthy] at hv
      | false =>
        rw [hv] at hrun
        simp only [Bool.false_eq_true, if_false, Option.some.injEq] at hrun
        subst hrun
        constructor
        · simp only [tdSet, List.lookup]
          rw [show ("remove_pcr_duplicates_method" == "library_complexity") = false
                from rfl]
          rw [show ("remove_pcr_duplicates_method" == "remove_pcr_duplicates_method") =
                true from rfl]
        · simp only [tdSet, List.lookup]
          rw [show ("library_complexity" == "library_complexity") = true from rfl]

/-- Claim C3: both peak callers determine the control purely from the
filename regex, substituting samplename ++ "_input": the control flag
("-c" for MACS, "-i" for HOMER) is appended exactly when the derived
control path exists, and the command is built without the flag — with no
error — when it does not exist or the regex does not match. -/
theorem call_peaks_control_flag (ex : String → Bool)
    (peaks_caller findpeaks_options infileM outfileM infileH outfileH : String) :
    (∀ sa ab, reMatchSampleAntibodyBam infileM = Option.some (sa, ab) →
       (ex (macs_control_file sa) = true →
          call_peaks_macs_statement ex peaks_caller infileM outfileM =
            macs_base_statement peaks_caller infileM outfileM
              ++ "-c " ++ macs_control_file sa) ∧
       (ex (macs_control_file sa) = false →
          call_peaks_macs_statement ex peaks_caller infileM outfileM =
            macs_base_statement peaks_caller infileM outfileM)) ∧
    (reMatchSampleAntibodyBam infileM = Option.none →
       call_peaks_macs_statement ex peaks_caller infileM outfileM =
         macs_base_statement peaks_caller infileM outfileM) ∧
    (∀ sa ab, reMatchSampleAntibody infileH = Option.some (sa, ab) →
       (ex (homer_control_dir sa) = true →
          call_peaks_homer_statement ex findpeaks_options infileH outfileH =
            homer_base_statement infileH findpeaks_options outfileH
              ++ ["-i " ++ homer_control_dir sa]
              ++ ["&& pos2bed.pl " ++ pyReplace outfileH ".bed" ".txt"
                    ++ " -o " ++ outfileH]) ∧
       (ex (homer_control_dir sa) = false →
          call_peaks_homer_statement ex findpeaks_options infileH outfileH =
            homer_base_statement infileH findpeaks_options outfileH
              ++ ["&& pos2bed.pl " ++ pyReplace outfileH ".bed" ".txt"
                    ++ " -o " ++ outfileH])) ∧
    (reMatchSampleAntibody infileH = Option.none →
       call_peaks_homer_statement ex findpeaks_options infileH outfileH =
         homer_base_statement infileH findpeaks_options outfileH
           ++ ["&& pos2bed.pl " ++ pyReplace outfileH ".bed" ".txt"
                 ++ " -o " ++ outfileH]) := by
  refine ⟨?_, ?_, ?_, ?_⟩
  · intro sa ab hm
    constructor
    · intro hex
      simp [call_peaks_macs_statement, hm, hex]
    · intro hex
      simp [call_peaks_macs_statement, hm, hex]
  · intro hm
    simp [call_peaks_macs_statement, hm]
  · intro sa ab hm
    constructor
    · intro hex
      simp [call_peaks_homer_statement, hm, hex]
    · intro hex
      simp [call_peaks_homer_statement, hm, hex]
  · intro hm
    simp [call_peaks_homer_statement, hm]

/-- Claim C5: each file matching the fastq glob is symlinked into fastq/
under its normalised name (Input and INPUT lowered to input, R1.fastq and
R2.fastq collapsed to 1.fastq and 2.fastq), unless a file with that
destination name already exists, in which case the existing entry is left
unchanged. -/
theorem fastq_symlink_normalization (abspath : String → String)
    (fs : SymFs) (globbed : List String) (fq : String)
    (hmem : fq ∈ globbed) (hnd : (globbed.map fqDest).Nodup) :
    (List.lookup (fqDest fq) fs = Option.none →
       List.lookup (fqDest fq) (createSymlinks fs (fastqPairs abspath globbed)) =
         Option.some (abspath fq)) ∧
    (∀ t, List.lookup (fqDest fq) fs = Option.some t →
       List.lookup (fqDest fq) (createSymlinks fs (fastqPairs abspath globbed)) =
         Option.some t) := by
  constructor
  · induction globbed generalizing fs with
    | nil => exact absurd hmem (List.not_mem_nil fq)
    | cons g rest ih =>
      intro hnone
      have hpairs : fastqPairs abspath (g :: rest) =
          (abspath g, fqDest g) :: fastqPairs abspath rest := rfl
      rw [hpairs]
      simp only [createSymlinks]
      rcases List.mem_cons.mp hmem with hfq | hfq
      · subst hfq
        rw [if_neg (by rw [hnone]; simp)]
        apply lookup_createSymlinks_preserved
        simp [List.lookup]
      · have hne : fqDest g ≠ fqDest fq := by
          intro heq
          have hgd : fqDest fq ∈ rest.map fqDest := List.mem_map_of_mem fqDest hfq
          rw [← heq] at hgd
          exact (List.nodup_cons.mp (by simpa [fqDest] using hnd)).1 hgd
        have hnd2 : (rest.map fqDest).Nodup := (List.nodup_cons.mp (by simpa using hnd)).2
        cases hp : (List.lookup (fqDest g) fs).isSome with
        | true =>
          rw [if_pos rfl]
          exact ih fs hfq hnd2 hnone
        | false =>
          rw [if_neg Bool.false_ne_true]
          exact ih ((fqDest g, abspath g) :: fs) hfq hnd2
            (by simpa [List.lookup, beq_eq_false_iff_ne.mpr (Ne.symm hne)] using hnone)
  · intro t ht
    exact lookup_createSymlinks_preserved (fastqPairs abspath globbed) fs (fqDest fq) t ht

/-- Claim C1: make_ucsc_hub reloads the previous run's pickled hub objects
exactly when the cache file .hub.pkl exists in hub_dir and hub_append is
truthy; in exactly that case the prior output files (every basename
matching genome_name ++ "*", plus hub_name ++ ".hub.txt" and hub_name ++
".genomes.txt") are deleted before the new hub is staged, and otherwise a
fresh default hub is created via trackhub.default_hub with the directory
untouched. -/
theorem make_ucsc_hub_append_cache_invalidation
    (p : HubParams) (fs : HubFs) (h1 h2 h3 h4 : HubObj) :
    ((fsExists fs pklName && p.hub_append) = false →
       hubCleanup p fs = Except.ok (CleanupOut.mk
         (trackhub_default_hub p.hub_name p.hub_short p.hub_long p.hub_email
           p.genome_name).1
         (trackhub_default_hub p.hub_name p.hub_short p.hub_long p.hub_email
           p.genome_name).2.1
         (trackhub_default_hub p.hub_name p.hub_short p.hub_long p.hub_email
           p.genome_name).2.2.1
         (trackhub_default_hub p.hub_name p.hub_short p.hub_long p.hub_email
           p.genome_name).2.2.2
         fs false)) ∧
    (∀ out, hubCleanup p fs = Except.ok out →
       (out.reloaded = true ↔ (fsExists fs pklName && p.hub_append) = true)) ∧
    ((fsExists fs pklName && p.hub_append) = true →
       List.lookup pklName fs = Option.some (FileData.pickled [h1, h2, h3, h4]) →
       (fsKeys fs).Nodup →
       fsExists (deleteGlob fs p.genome_name) (p.hub_name ++ ".hub.txt") = true →
       fsExists (fsRemove (deleteGlob fs p.genome_name) (p.hub_name ++ ".hub.txt"))
         (p.hub_name ++ ".genomes.txt") = true →
       hubCleanup p fs = Except.ok (CleanupOut.mk h1 h2 h3 h4
         (fsRemove (fsRemove (deleteGlob fs p.genome_name)
            (p.hub_name ++ ".hub.txt"))
           (p.hub_name ++ ".genomes.txt")) true)) := by
  refine ⟨?_, ?_, ?_⟩
  · intro hc
    simp only [hubCleanup]
    rw [if_neg (by rw [hc]; exact Bool.false_ne_true)]
  · intro out hout
    by_cases hc : (fsExists fs pklName && p.hub_append) = true
    · simp only [hubCleanup, if_pos hc] at hout
      constructor
      · intro _; exact hc
      · intro _
        split at hout
        · split at hout
          · exact absurd hout (by simp)
          · split at hout
            · exact absurd hout (by simp)
            · split at hout
              · exact absurd hout (by simp)
              · simp only [Except.ok.injEq] at hout
                rw [← hout]
        · exact absurd hout (by simp)
        · exact absurd hout (by simp)
        · exact absurd hout (by simp)
    · simp only [hubCleanup, if_neg hc, Except.ok.injEq] at hout
      rw [← hout]
      simp [hc]
  · intro hc hlk hnd hex1 hex2
    simp only [hubCleanup, if_pos hc]
    rw [hlk]
    simp only []
    rw [unlinkList_globList fs p.genome_name hnd]
    simp only []
    simp only [unlink, if_pos hex1]
    simp only [unlink, if_pos hex2]

/-- Claim C2 counterexample: the cache handled by make_ucsc_hub does not
consist of exactly three library objects.  The object list passed to
pickle.dump at line 600 has four elements, and the append-mode load at
line 543 rejects a three-object cache with a ValueError (the unpacking
`hub, genomes_file, genome, trackdb = pickle.load(pkl)` needs four). -/
theorem hub_cache_three_objects_counterexample :
    ((hubPickleList (HubObj.hubO "myhub" "" "" "mail" "hg38")
        (HubObj.genomesFileO "myhub") (HubObj.genomeO "hg38")
        (HubObj.trackDbO [])).length = 3) = False ∧
    (hubPickleList (HubObj.hubO "myhub" "" "" "mail" "hg38")
        (HubObj.genomesFileO "myhub") (HubObj.genomeO "hg38")
        (HubObj.trackDbO [])).length = 4 ∧
    hubCleanup (HubParams.mk "myhub" "hg38" true Option.none Option.none "mail")
        [(pklName, FileData.pickled [HubObj.genomesFileO "myhub",
          HubObj.genomeO "hg38", HubObj.trackDbO []])] =
      Except.error PyErr.valueError := by
  refine ⟨by simp [hubPickleList], rfl, by rfl⟩

/-- Claim C2 (amended): the hub cache is a pickled list of exactly four
library objects — hub, genomes file, genome and track database — and an
append-mode run that reloads the cache destructures exactly those four
objects back into its local variables. -/
theorem hub_cache_four_objects (a b c d : HubObj) :
    (hubPickleList a b c d).length = 4 ∧
    (∀ (p : HubParams) (fs : HubFs) (out : CleanupOut),
       List.lookup pklName fs =
           Option.some (FileData.pickled (hubPickleList a b c d)) →
       hubCleanup p fs = Except.ok out →
       out.reloaded = true →
       out.hub = a ∧ out.genomes_file = b ∧ out.genome = c ∧ out.trackdb = d) := by
  constructor
  · rfl
  · intro p fs out hlk hout hrel
    by_cases hc : (fsExists fs pklName && p.hub_append) = true
    · simp only [hubCleanup, if_pos hc] at hout
      rw [hlk] at hout
      simp only [hubPickleList] at hout
      split at hout
      · exact absurd hout (by simp)
      · split at hout
        · exact absurd hout (by simp)
        · split at hout
          · exact absurd hout (by simp)
          · simp only [Except.ok.injEq] at hout
            rw [← hout]
            exact ⟨rfl, rfl, rfl, rfl⟩
    · simp only [hubCleanup, if_neg hc, Except.ok.injEq] at hout
      rw [← hout] at hrel
      simp at hrel

/-- Claim C8: every run of make_ucsc_hub that reaches the cache-saving
step raises TypeError, because pickle.dump is called without its file
argument; the open(..., "wb") context manager has already truncated
.hub.pkl, so the cache file ends up empty and no pickled data is ever
written by this function. -/
theorem make_ucsc_hub_pickle_dump_type_error
    (p : HubParams) (fs : HubFs) (infiles : List String) (out : CleanupOut)
    (hok : hubCleanup p fs = Except.ok out) :
    (make_ucsc_hub p fs infiles).2 = Except.error PyErr.typeError ∧
    List.lookup pklName (make_ucsc_hub p fs infiles).1 =
      Option.some FileData.truncated := by
  have hpair : make_ucsc_hub p fs infiles =
      (fsSet (stageHub p out.fs) pklName FileData.truncated,
       Except.error PyErr.typeError) := by
    simp only [make_ucsc_hub]
    rw [hok]
    simp only [pickle_dump_missing_file]
  rw [hpair]
  exact ⟨rfl, by simp [fsSet, List.lookup]⟩

/-- Witness for make_ucsc_hub_append_cache_invalidation: a concrete
append-mode hub directory on which the reload branch runs and deletes the
staged genome file and the two metadata files. -/
theorem make_ucsc_hub_append_cache_invalidation_witness :
    (fsExists hubFsW pklName && hubParamsW.hub_append) = true ∧
    List.lookup pklName hubFsW =
      Option.some (FileData.pickled [hubObjW1, hubObjW2, hubObjW3, hubObjW4]) ∧
    (fsKeys hubFsW).Nodup ∧
    fsExists (deleteGlob hubFsW hubParamsW.genome_name)
      (hubParamsW.hub_name ++ ".hub.txt") = true ∧
    fsExists (fsRemove (deleteGlob hubFsW hubParamsW.genome_name)
        (hubParamsW.hub_name ++ ".hub.txt"))
      (hubParamsW.hub_name ++ ".genomes.txt") = true ∧
    hubCleanup hubParamsW hubFsW = Except.ok (CleanupOut.mk
      hubObjW1 hubObjW2 hubObjW3 hubObjW4
      (fsRemove (fsRemove (deleteGlob hubFsW hubParamsW.genome_name)
         (hubParamsW.hub_name ++ ".hub.txt"))
        (hubParamsW.hub_name ++ ".genomes.txt")) true) :=
  ⟨by decide, by decide, by decide, by decide, by decide,
   (make_ucsc_hub_append_cache_invalidation hubParamsW hubFsW
      hubObjW1 hubObjW2 hubObjW3 hubObjW4).2.2
     (by decide) (by decide) (by decide) (by decide) (by decide)⟩

/-- Witness for hub_cache_four_objects: on the concrete append-mode
directory the four pickled objects are destructured back verbatim. -/
theorem hub_cache_four_objects_witness :
    (hubPickleList hubObjW1 hubObjW2 hubObjW3 hubObjW4).length = 4 ∧
    List.lookup pklName hubFsW =
      Option.some (FileData.pickled
        (hubPickleList hubObjW1 hubObjW2 hubObjW3 hubObjW4)) ∧
    hubCleanup hubParamsW hubFsW = Except.ok cleanupOutW ∧
    cleanupOutW.reloaded = true ∧
    (cleanupOutW.hub = hubObjW1 ∧ cleanupOutW.genomes_file = hubObjW2 ∧
     cleanupOutW.genome = hubObjW3 ∧ cleanupOutW.trackdb = hubObjW4) :=
  ⟨(hub_cache_four_objects hubObjW1 hubObjW2 hubObjW3 hubObjW4).1,
   by decide, by rfl, by decide,
   (hub_cache_four_objects hubObjW1 hubObjW2 hubObjW3 hubObjW4).2
     hubParamsW hubFsW cleanupOutW (by decide) (by rfl) (by decide)⟩

/-- Witness for make_ucsc_hub_pickle_dump_type_error: with append mode off
and an empty hub directory the run fails with TypeError at the cache-save
step, leaving .hub.pkl truncated. -/
theorem make_ucsc_hub_pickle_dump_type_error_witness :
    hubCleanup hubParamsW0 [] = Except.ok cleanupOutW0 ∧
    ((make_ucsc_hub hubParamsW0 [] []).2 = Except.error PyErr.typeError ∧
     List.lookup pklName (make_ucsc_hub hubParamsW0 [] []).1 =
       Option.some FileData.truncated) :=
  ⟨by rfl,
   make_ucsc_hub_pickle_dump_type_error hubParamsW0 [] [] cleanupOutW0 (by rfl)⟩

/-- Witness for call_peaks_control_flag: for a concrete ChIP sample the
regex extracts samplename "samp1", and the existing controls are appended
with "-c" and "-i" respectively. -/
theorem call_peaks_control_flag_witness :
    reMatchSampleAntibodyBam "bam_processed/samp1_H3K27ac.bam" =
      Option.some ("samp1", "H3K27ac") ∧
    exW (macs_control_file "samp1") = true ∧
    call_peaks_macs_statement exW "macs2"
        "bam_processed/samp1_H3K27ac.bam" "peaks/macs/samp1_H3K27ac_peaks.narrowPeak" =
      macs_base_statement "macs2" "bam_processed/samp1_H3K27ac.bam"
          "peaks/macs/samp1_H3K27ac_peaks.narrowPeak"
        ++ "-c " ++ macs_control_file "samp1" ∧
    reMatchSampleAntibody "tag/samp1_H3K27ac" =
      Option.some ("samp1", "H3K27ac") ∧
    exW (homer_control_dir "samp1") = true ∧
    call_peaks_homer_statement exW "-style factor"
        "tag/samp1_H3K27ac" "peaks/homer/samp1_H3K27ac_peaks.bed" =
      homer_base_statement "tag/samp1_H3K27ac" "-style factor"
          "peaks/homer/samp1_H3K27ac_peaks.bed"
        ++ ["-i " ++ homer_control_dir "samp1"]
        ++ ["&& pos2bed.pl "
              ++ pyReplace "peaks/homer/samp1_H3K27ac_peaks.bed" ".bed" ".txt"
              ++ " -o " ++ "peaks/homer/samp1_H3K27ac_peaks.bed"] :=
  ⟨by decide, by decide,
   ((call_peaks_control_flag exW "macs2" "-style factor"
       "bam_processed/samp1_H3K27ac.bam" "peaks/macs/samp1_H3K27ac_peaks.narrowPeak"
       "tag/samp1_H3K27ac" "peaks/homer/samp1_H3K27ac_peaks.bed").1
     "samp1" "H3K27ac" (by decide)).1 (by decide),
   by decide, by decide,
   ((call_peaks_control_flag exW "macs2" "-style factor"
       "bam_processed/samp1_H3K27ac.bam" "peaks/macs/samp1_H3K27ac_peaks.narrowPeak"
       "tag/samp1_H3K27ac" "peaks/homer/samp1_H3K27ac_peaks.bed").2.2.1
     "samp1" "H3K27ac" (by decide)).1 (by decide)⟩

/-- Witness for fastq_symlink_normalization: the single globbed file is
normalised (Input lowered, R1 collapsed) and symlinked to its source. -/
theorem fastq_symlink_normalization_witness :
    "sampleA_Input_R1.fastq.gz" ∈ globbedW ∧
    (globbedW.map fqDest).Nodup ∧
    fqDest "sampleA_Input_R1.fastq.gz" = "fastq/sampleA_input_1.fastq.gz" ∧
    List.lookup (fqDest "sampleA_Input_R1.fastq.gz") ([] : SymFs) = Option.none ∧
    List.lookup (fqDest "sampleA_Input_R1.fastq.gz")
        (createSymlinks [] (fastqPairs abspathW globbedW)) =
      Option.some (abspathW "sampleA_Input_R1.fastq.gz") :=
  ⟨by decide, by decide, by decide, by rfl,
   (fastq_symlink_normalization abspathW [] globbedW "sampleA_Input_R1.fastq.gz"
      (by decide) (by decide)).1 (by rfl)⟩

/-- Witness for explicit_failure_checks: with a provided genome name, an
existing genome config file and a known genome key both checks pass. -/
theorem explicit_failure_checks_witness :
    pyTruthyOpt (Option.some "hg38") = true ∧
    (∃ r, set_up_chromsizes (Option.some "hg38") Option.none false =
      Except.ok r) ∧
    ((true = true ∧ (List.lookup "hg38" genomeValuesW).isSome = true) ∧
     ∃ gc, setup_configuration_guards true genomeValuesW "chip" "hg38" =
       Except.ok gc) :=
  ⟨by decide,
   (explicit_failure_checks (Option.some "hg38") Option.none false true
      genomeValuesW "chip" "hg38").2.1 (by decide),
   ⟨rfl, by decide⟩,
   (explicit_failure_checks (Option.some "hg38") Option.none false true
      genomeValuesW "chip" "hg38").2.2.2 ⟨rfl, by decide⟩⟩

/-- Witness for wizard_peak_method_and_pcr_defaults: on answers yes and
macs the peak caller lands in the allowed set, and on answer no both
PCR-duplicate keys are the string "False". -/
theorem wizard_peak_method_and_pcr_defaults_witness :
    ("chip" = "chip" ∨ "chip" = "atac") ∧
    setup_call_peaks "chip" [] ["yes"] ["macs"] = Option.some tdPeaksW ∧
    List.lookup "call_peaks" tdPeaksW = Option.some (PyVal.bool true) ∧
    (∃ s, List.lookup "peak_calling_method" tdPeaksW =
        Option.some (PyVal.str s) ∧ s ∈ peak_choices) ∧
    setup_remove_pcr_duplicates "chip" [] ["no"] [] [] = Option.some tdPcrW ∧
    List.lookup "remove_pcr_duplicates" tdPcrW =
      Option.some (PyVal.bool false) ∧
    (List.lookup "remove_pcr_duplicates_method" tdPcrW =
        Option.some (PyVal.str "False") ∧
     List.lookup "library_complexity" tdPcrW =
        Option.some (PyVal.str "False")) :=
  ⟨Or.inl rfl, by rfl, by decide,
   (wizard_peak_method_and_pcr_defaults "chip" [] ["yes"] ["macs"] ["no"] [] []).1
     tdPeaksW (Or.inl rfl) (by rfl) (by decide),
   by rfl, by decide,
   (wizard_peak_method_and_pcr_defaults "chip" [] ["yes"] ["macs"] ["no"] [] []).2
     tdPcrW (by rfl) (by decide)⟩
